import Mathlib

/-!
Shallow embedding of the jai-mcp access-control gateway
(src/jai_mcp/gateway/{auth,main,proxy,logging}.py) together with the
framework behaviour the routes are wired into (FastAPI dependency
resolution, fastapi.security.HTTPBearer, slowapi's endpoint-decorator
rate limiting, Starlette's lowercase header dict).

Python dicts over string keys are modelled as association lists with
Python's exact-key semantics (`dget`, `dset`, `dpop`); fallible steps
return `Except HTTPError`.
-/

namespace JaiMcp

/-- An HTTP error carried by a raised HTTPException: status code plus detail. -/
structure HTTPError where
  status : Nat
  detail : String
deriving Repr, DecidableEq

/-- The user record produced by the identity resolver
(`get_user_from_api_key` in src/jai_mcp/gateway/auth.py). -/
structure User where
  id : String
  email : String
  roles : List String
  tenant_id : String
  permissions : List String
deriving Repr, DecidableEq

/-- A header/dict mapping: association list with unique-key discipline
maintained by the operations below (Python dict semantics). -/
abbrev Dict := List (String × String)

/-- Python `d.get(k)`: value at exact key `k`, if present. -/
def dget (d : Dict) (k : String) : Option String :=
  (d.find? (fun p => p.1 = k)).map (fun p => p.2)

/-- Python `d.pop(k, None)`: remove the entry with exact key `k`. -/
def dpop (d : Dict) (k : String) : Dict :=
  d.filter (fun p => p.1 ≠ k)

/-- Python `d[k] = v` / one entry of `d.update(...)`: overwrite in place
if the exact key exists (dict keys are unique, so the first occurrence is
the occurrence), else append at the end. -/
def dset (d : Dict) (k v : String) : Dict :=
  match d with
  | [] => [(k, v)]
  | p :: rest => if p.1 = k then (k, v) :: rest else p :: dset rest k v

/-- ASCII lowercase of one character (header names and auth schemes are
ASCII, so this matches Python's `str.lower` on them). -/
def lowerChar (c : Char) : Char :=
  if 'A' ≤ c ∧ c ≤ 'Z' then Char.ofNat (c.toNat + 32) else c

/-- ASCII lowercase of a string. -/
def lowerStr (s : String) : String :=
  ⟨s.data.map lowerChar⟩

/-- Starlette header lookup (`request.headers.get(k)`): case-insensitive,
first matching raw entry wins. -/
def headerGet (hs : List (String × String)) (k : String) : Option String :=
  (hs.find? (fun p => lowerStr p.1 = lowerStr k)).map (fun p => p.2)

/-- `dict(request.headers)`: Starlette lowercases every header key; building
a dict keeps the last value for a repeated key. -/
def dictOfHeaders (hs : List (String × String)) : Dict :=
  hs.foldl (fun d p => dset d (lowerStr p.1) p.2) []

/-! ### Credential extraction (fastapi.security.HTTPBearer + auth.verify_api_key) -/

/-- The scheme/credentials pair produced by HTTPBearer
(`HTTPAuthorizationCredentials`). -/
structure Creds where
  scheme : String
  credentials : String
deriving Repr, DecidableEq

/-- Split a character list at the first space: the part before it, and
(if a space occurs) the part after it. -/
def splitFirstSpace : List Char → List Char × Option (List Char)
  | [] => ([], none)
  | c :: cs =>
    if c = ' ' then ([], some cs)
    else
      let (a, b) := splitFirstSpace cs
      (c :: a, b)

/-- Python `s.partition(" ")` restricted to the pieces HTTPBearer uses:
text before the first space, and text after it (empty when no space). -/
def partitionSpace (s : String) : String × String :=
  match splitFirstSpace s.data with
  | (a, none) => (⟨a⟩, "")
  | (a, some b) => (⟨a⟩, ⟨b⟩)

/-- `fastapi.security.HTTPBearer.__call__` with `auto_error = True`
(the configuration used by `security = HTTPBearer()` in auth.py):
a missing or malformed Authorization header raises 403 "Not authenticated",
a non-bearer scheme raises 403 "Invalid authentication credentials". -/
def httpBearer (authorization : Option String) : Except HTTPError Creds :=
  match authorization with
  | none => .error ⟨403, "Not authenticated"⟩
  | some a =>
    let (scheme, param) := partitionSpace a
    if a = "" ∨ scheme = "" ∨ param = "" then
      .error ⟨403, "Not authenticated"⟩
    else if lowerStr scheme ≠ "bearer" then
      .error ⟨403, "Invalid authentication credentials"⟩
    else
      .ok ⟨scheme, param⟩

/-- `auth.verify_api_key`: its parameter is the result of the HTTPBearer
dependency (None only if that dependency could return without raising). -/
def verify_api_key (credentials : Option Creds) : Except HTTPError String :=
  match credentials with
  | none => .error ⟨401, "API key required"⟩
  | some c =>
    let api_key := c.credentials
    if api_key = "" ∨ api_key.length < 32 then
      .error ⟨401, "Invalid API key"⟩
    else
      .ok api_key

/-! ### Identity resolution and authorization (auth.py) -/

/-- `auth.get_user_from_api_key`: the hardcoded mock identity resolver. -/
def get_user_from_api_key (_api_key : String) : User :=
  { id := "admin-user-123"
  , email := "admin@example.com"
  , roles := ["system_admin"]
  , tenant_id := "default"
  , permissions := ["mcp_access", "module_management", "project_management"] }

/-- The admin roles checked by `verify_admin_access`. -/
def admin_roles : List String := ["system_admin", "org_admin"]

/-- `auth.verify_admin_access`, parameterised over the identity resolver it
calls and the `ALLOWED_ADMINS` configuration list. -/
def verify_admin_accessWith (resolve : String → User) (allowedAdmins : List String)
    (api_key : String) : Except HTTPError User :=
  let user := resolve api_key
  if user.roles.any (fun role => admin_roles.contains role) then
    if allowedAdmins.isEmpty then
      .ok user
    else if allowedAdmins.contains user.email then
      .ok user
    else
      .error ⟨403, "Admin not authorized for MCP access"⟩
  else
    .error ⟨403, "MCP access requires admin privileges"⟩

/-- `auth.verify_admin_access` as wired: resolver is `get_user_from_api_key`. -/
def verify_admin_access (allowedAdmins : List String) (api_key : String) :
    Except HTTPError User :=
  verify_admin_accessWith get_user_from_api_key allowedAdmins api_key

/-- `auth.get_tenant_from_request`: read `X-Tenant-ID` (case-insensitive
Starlette lookup); a missing or empty value raises 400. -/
def get_tenant_from_request (headers : List (String × String)) :
    Except HTTPError String :=
  match headerGet headers "X-Tenant-ID" with
  | none => .error ⟨400, "Tenant ID required in X-Tenant-ID header"⟩
  | some t =>
    if t = "" then .error ⟨400, "Tenant ID required in X-Tenant-ID header"⟩
    else .ok t

/-- `auth.verify_tenant_access`, as a function of its two resolved
dependencies (tenant from the header, user from the admin check). -/
def verify_tenant_access (tenant : String) (user : User) :
    Except HTTPError String :=
  if user.roles.contains "system_admin" then
    .ok tenant
  else if user.tenant_id ≠ tenant then
    .error ⟨403, "Cross-tenant access denied"⟩
  else
    .ok tenant

/-! ### Header rewriting and forwarding (proxy.py) -/

/-- `JaiAPIProxy._prepare_internal_headers`: copy the inbound mapping,
overlay the gateway headers, pop the exact key "authorization", and add
the internal API key when configured. -/
def prepare_internal_headers (original_headers : Dict) (tenant : String)
    (user : User) (internal_api_key : Option String) : Dict :=
  let headers := original_headers
  let headers := dset headers "X-Forwarded-For"
    ((dget headers "x-forwarded-for").getD "unknown")
  let headers := dset headers "X-Forwarded-Proto" "https"
  let headers := dset headers "X-Gateway-User-ID" user.id
  let headers := dset headers "X-Gateway-User-Email" user.email
  let headers := dset headers "X-Gateway-User-Roles" (String.intercalate "," user.roles)
  let headers := dset headers "X-Gateway-Tenant-ID" tenant
  let headers := dset headers "X-Gateway-Source" "mcp-gateway"
  let headers := dpop headers "authorization"
  match internal_api_key with
  | some k => dset headers "X-Internal-API-Key" k
  | none => headers

/-- The hop-by-hop header names popped in `forward_request`. -/
def hop_by_hop_headers : List String :=
  ["connection", "keep-alive", "proxy-authenticate",
   "proxy-authorization", "te", "trailers", "transfer-encoding", "upgrade"]

/-- The outbound header mapping built inside `forward_request`:
`_prepare_internal_headers` followed by popping each hop-by-hop name. -/
def internal_headers_of (headers : Dict) (tenant : String) (user : User)
    (internal_api_key : Option String) : Dict :=
  hop_by_hop_headers.foldl (fun d k => dpop d k)
    (prepare_internal_headers headers tenant user internal_api_key)

/-- The caller-visible state around a `_prepare_internal_headers` call:
the inbound mapping the caller still holds, and the mapping the call
returns. -/
structure HeaderCallState where
  original_headers : Dict
  result : Dict
deriving Repr, DecidableEq

/-- The call `internal_headers = self._prepare_internal_headers(headers,
tenant, user)` as a transformer of that state: the body's first statement
`headers = original_headers.copy()` directs every subsequent write to the
copy, and the returned mapping is bound to the result; `original_headers`
itself is never written. -/
def prepare_internal_headers_call (tenant : String) (user : User)
    (internal_api_key : Option String) (s : HeaderCallState) : HeaderCallState :=
  { original_headers := s.original_headers
  , result := prepare_internal_headers s.original_headers tenant user internal_api_key }

/-- The body the proxy returns for a successful upstream response:
`response.json()` if parsing succeeds, else `response.content`. -/
inductive Body where
  | json (payload : String)
  | raw (content : List Nat)
deriving Repr, DecidableEq

/-- What the upstream internal API does for one forwarded call. -/
inductive UpstreamResult where
  | response (status : Nat) (body : Body)
  | netFail
deriving Repr, DecidableEq

/-- The httpx exceptions `forward_request` lets escape: `HTTPStatusError`
from `raise_for_status()` on a 4xx/5xx response, `RequestError` on a
network-level failure (connection refused, timeout). -/
inductive ProxyExn where
  | httpStatusError (status : Nat)
  | requestError
deriving Repr, DecidableEq

/-- `JaiAPIProxy.forward_request`: build the outbound headers, issue the
call, and classify the outcome. Returns the outbound header mapping
alongside the result so the wiring stays visible. -/
def forward_request (upstream : UpstreamResult) (headers : Dict)
    (tenant : String) (user : User) (internal_api_key : Option String) :
    Dict × Except ProxyExn Body :=
  let internal_headers := internal_headers_of headers tenant user internal_api_key
  match upstream with
  | .netFail => (internal_headers, .error .requestError)
  | .response status body =>
    if 400 ≤ status then
      (internal_headers, .error (.httpStatusError status))
    else
      (internal_headers, .ok body)

/-! ### The /api/{path} route pipeline (main.py + FastAPI + slowapi) -/

/-- One inbound HTTP request as the gateway sees it. -/
structure GReq where
  method : String
  path : String
  client_ip : String
  headers : List (String × String)
deriving Repr, DecidableEq

/-- The caller-visible outcome of one request to /api/{path}. -/
structure PipeResult where
  status : Nat
  detail : Option String
  body : Option Body
  forwarded : Bool
deriving Repr, DecidableEq

/-- FastAPI resolves `proxy_request`'s dependencies in declared order:
`admin_user` (HTTPBearer → verify_api_key → verify_admin_access), then
`tenant` (get_tenant_from_request). The first raised HTTPException wins. -/
def resolveDeps (resolve : String → User) (allowedAdmins : List String)
    (req : GReq) : Except HTTPError (User × String) := do
  let creds ← httpBearer (headerGet req.headers "Authorization")
  let api_key ← verify_api_key (some creds)
  let admin_user ← verify_admin_accessWith resolve allowedAdmins api_key
  let tenant ← get_tenant_from_request req.headers
  pure (admin_user, tenant)

/-- The default rate limit wired by `@limiter.limit("60/minute")`. -/
def RATE_LIMIT : Nat := 60

/-- The `/api/{path}` handler `proxy_request` as executed: FastAPI solves
the auth/tenant dependencies first; only then does slowapi's decorator
around the endpoint body check the per-key fixed-window counter
(`prior_hits` = requests already counted for this key in the active
window); then the body forwards via the module-global proxy and maps any
exception to a 500. Parameterised over the identity resolver so behaviour
for hypothetical identities is statable. -/
def proxy_requestWith (resolve : String → User) (allowedAdmins : List String)
    (proxyReady : Bool) (internal_api_key : Option String)
    (upstream : UpstreamResult) (prior_hits limit : Nat) (req : GReq) :
    PipeResult :=
  match resolveDeps resolve allowedAdmins req with
  | .error e => { status := e.status, detail := some e.detail, body := none, forwarded := false }
  | .ok (admin_user, tenant) =>
    if limit ≤ prior_hits then
      { status := 429, detail := some "Rate limit exceeded: 60 per 1 minute"
      , body := none, forwarded := false }
    else if ¬ proxyReady then
      { status := 503, detail := some "Gateway not ready", body := none, forwarded := false }
    else
      match (forward_request upstream (dictOfHeaders req.headers) tenant
               admin_user internal_api_key).2 with
      | .ok b => { status := 200, detail := none, body := some b, forwarded := true }
      | .error _ =>
        { status := 500, detail := some "Internal server error", body := none, forwarded := true }

/-- The pipeline as wired in the source: resolver is the hardcoded mock. -/
def proxy_request (allowedAdmins : List String) (proxyReady : Bool)
    (internal_api_key : Option String) (upstream : UpstreamResult)
    (prior_hits limit : Nat) (req : GReq) : PipeResult :=
  proxy_requestWith get_user_from_api_key allowedAdmins proxyReady
    internal_api_key upstream prior_hits limit req

/-! ### Audit middleware (main.py audit_middleware, logging.py) -/

/-- The structured audit events emitted around a request. -/
inductive AuditEvent where
  | request_received (method path client_ip : String) (user_agent : Option String)
  | request_completed (status_code : Nat) (path : String)
deriving Repr, DecidableEq

/-- `main.audit_middleware`: when the audit logger is set, log a
`request_received` event, run the rest of the stack (`call_next`, beneath
which FastAPI's exception handlers turn every HTTPException into a
response), then log a `request_completed` event with the response status. -/
def audit_middleware (audit_logger_set : Bool)
    (call_next : GReq → PipeResult) (req : GReq) :
    List AuditEvent × PipeResult :=
  let pre := if audit_logger_set then
      [AuditEvent.request_received req.method req.path req.client_ip
        (headerGet req.headers "user-agent")]
    else []
  let response := call_next req
  let post := if audit_logger_set then
      [AuditEvent.request_completed response.status req.path]
    else []
  (pre ++ post, response)

/-! ### Concrete fixtures used by the theorems below -/

/-- A 32-character token: passes the syntactic credential check exactly. -/
def tok32 : String := "abcdefghabcdefghabcdefghabcdefgh"

/-- The fixed record the mock identity resolver returns. -/
def mock_admin_user : User :=
  { id := "admin-user-123"
  , email := "admin@example.com"
  , roles := ["system_admin"]
  , tenant_id := "default"
  , permissions := ["mcp_access", "module_management", "project_management"] }

/-- A hypothetical org-admin identity scoped to tenant "t1". -/
def org_admin_user : User :=
  { id := "org-user-1", email := "org@example.com", roles := ["org_admin"]
  , tenant_id := "t1", permissions := [] }

/-- A hypothetical identity with no admin role. -/
def non_admin_user : User :=
  { id := "u2", email := "user@example.com", roles := ["viewer"]
  , tenant_id := "t1", permissions := [] }

/-- An upstream that answers 200 with a JSON body. -/
def okUpstream : UpstreamResult := .response 200 (.json "modules")

/-- A well-formed request: bearer token of exactly 32 characters, tenant
header "t1". -/
def goodReq : GReq :=
  { method := "GET", path := "/api/modules", client_ip := "203.0.113.7"
  , headers := [("Authorization", "Bearer " ++ tok32), ("X-Tenant-ID", "t1")] }

/-- A request with no Authorization header at all. -/
def reqNoAuth : GReq :=
  { method := "GET", path := "/api/modules", client_ip := "203.0.113.7"
  , headers := [("X-Tenant-ID", "t1")] }

/-- A request whose Authorization scheme is not bearer. -/
def reqBasicAuth : GReq :=
  { method := "GET", path := "/api/modules", client_ip := "203.0.113.7"
  , headers := [("Authorization", "Basic " ++ tok32), ("X-Tenant-ID", "t1")] }

/-- A request whose bearer credential is shorter than 32 characters. -/
def reqShortTok : GReq :=
  { method := "GET", path := "/api/modules", client_ip := "203.0.113.7"
  , headers := [("Authorization", "Bearer short"), ("X-Tenant-ID", "t1")] }

/-- An org-admin request whose X-Tenant-ID ("t2") differs from the
identity's tenant ("t1"). -/
def reqWrongTenant : GReq :=
  { method := "GET", path := "/api/modules", client_ip := "203.0.113.7"
  , headers := [("Authorization", "Bearer " ++ tok32), ("X-Tenant-ID", "t2")] }

/-! ### Dictionary lemmas -/

theorem dget_nil (k : String) : dget [] k = none := rfl

theorem dget_cons (p : String × String) (l : Dict) (k : String) :
    dget (p :: l) k = if p.1 = k then some p.2 else dget l k := by
  by_cases h : p.1 = k <;> simp [dget, List.find?_cons, h]

theorem dpop_cons (p : String × String) (l : Dict) (k : String) :
    dpop (p :: l) k = if p.1 = k then dpop l k else p :: dpop l k := by
  by_cases h : p.1 = k <;> simp [dpop, List.filter_cons, h]

theorem dget_dpop_self (d : Dict) (k : String) : dget (dpop d k) k = none := by
  induction d with
  | nil => rfl
  | cons p l ih => by_cases h : p.1 = k <;> simp [dpop_cons, h, dget_cons, ih]

theorem dget_dpop_ne (d : Dict) (k k' : String) (h : k ≠ k') :
    dget (dpop d k') k = dget d k := by
  have h' : k' ≠ k := fun e => h e.symm
  induction d with
  | nil => rfl
  | cons p l ih =>
    by_cases hp : p.1 = k'
    · simp [dpop_cons, hp, dget_cons, h', ih]
    · by_cases hk : p.1 = k <;> simp [dpop_cons, hp, dget_cons, hk, h, h', ih]

theorem dget_dset_ne (d : Dict) (k k' v : String) (h : k ≠ k') :
    dget (dset d k' v) k = dget d k := by
  have h' : k' ≠ k := fun e => h e.symm
  induction d with
  | nil => simp [dset, dget_cons, dget_nil, h']
  | cons p l ih =>
    by_cases hp : p.1 = k'
    · simp [dset, hp, dget_cons, h', ih]
    · by_cases hk : p.1 = k <;> simp [dset, hp, dget_cons, hk, h, h', ih]

/-! ### Claim theorems -/

/-- Claim C1 (code bug): the claim says an org_admin whose tenant differs
from X-Tenant-Id gets 403 and nothing is forwarded, and a system_admin is
admitted for any tenant. The function `verify_tenant_access` implements
exactly that policy, but `proxy_request`'s dependencies are only
`verify_admin_access` and `get_tenant_from_request`, so the cross-tenant
check never runs on the /api surface: an org_admin request for a foreign
tenant is forwarded and answered 200. First conjunct: the wired pipeline
forwards the mismatched request; second: the dead function would have
rejected it with 403; third: the dead function admits a system_admin for
every tenant value. -/
theorem c1_tenant_check_not_enforced :
    proxy_requestWith (fun _ => org_admin_user) [] true none okUpstream 0 60 reqWrongTenant =
      { status := 200, detail := none, body := some (.json "modules"), forwarded := true } ∧
    verify_tenant_access "t2" org_admin_user =
      .error ⟨403, "Cross-tenant access denied"⟩ ∧
    (∀ t : String, verify_tenant_access t mock_admin_user = .ok t) :=
  ⟨rfl, rfl, fun _ => rfl⟩

/-- Claim C2 counterexample: a client key that has already made 60 requests
in the active window presents a credential the syntactic check rejects;
the response is 401 "Invalid API key", not 429 — the rate limit does not
run before authentication, refuting the claim as stated. -/
theorem c2_counterexample :
    (proxy_request [] true none okUpstream 60 60 reqShortTok).status = 401 ∧
    (proxy_request [] true none okUpstream 60 60 reqShortTok).status ≠ 429 :=
  ⟨rfl, by decide⟩

/-- Claim C2 amended: slowapi's `@limiter.limit` decorator checks the
counter only when the wrapped endpoint body is invoked, which happens
after FastAPI has resolved the authentication/authorization and tenant
dependencies. When the dependencies succeed and the key is at or over the
limit the request gets 429 and nothing is forwarded; when a dependency
fails, its error status is returned regardless of the counter. -/
theorem c2_rate_limit_after_deps (resolve : String → User)
    (allowed : List String) (proxyReady : Bool) (k? : Option String)
    (upstream : UpstreamResult) (hits limit : Nat) (req : GReq) :
    (∀ p, resolveDeps resolve allowed req = .ok p → limit ≤ hits →
      proxy_requestWith resolve allowed proxyReady k? upstream hits limit req =
        { status := 429, detail := some "Rate limit exceeded: 60 per 1 minute"
        , body := none, forwarded := false }) ∧
    (∀ e, resolveDeps resolve allowed req = .error e →
      proxy_requestWith resolve allowed proxyReady k? upstream hits limit req =
        { status := e.status, detail := some e.detail, body := none, forwarded := false }) := by
  constructor
  · intro p hdeps hlim
    obtain ⟨u0, t0⟩ := p
    unfold proxy_requestWith
    rw [hdeps]
    simp [hlim]
  · intro e hdeps
    unfold proxy_requestWith
    rw [hdeps]

/-- Claim C2 amended, witness: a fully valid request from a key at the
limit is rejected 429 with nothing forwarded. -/
theorem c2_rate_limit_after_deps_witness :
    proxy_requestWith get_user_from_api_key [] true none okUpstream 60 60 goodReq =
      { status := 429, detail := some "Rate limit exceeded: 60 per 1 minute"
      , body := none, forwarded := false } :=
  (c2_rate_limit_after_deps get_user_from_api_key [] true none okUpstream
      60 60 goodReq).1 (mock_admin_user, "t1") (by rfl) (by decide)

/-- Claim C3 counterexample: the upstream answers 404, yet the gateway's
response is 500 "Internal server error" — the upstream status code is not
passed through. -/
theorem c3_counterexample :
    proxy_request [] true none (.response 404 (.raw [])) 0 60 goodReq =
      { status := 500, detail := some "Internal server error"
      , body := none, forwarded := true } ∧
    (proxy_request [] true none (.response 404 (.raw [])) 0 60 goodReq).status ≠ 404 :=
  ⟨rfl, by decide⟩

/-- Claim C3 amended: `forward_request` does distinguish upstream
rejections (`HTTPStatusError`, from `raise_for_status`) from network-level
failures (`RequestError`), but only as exception types that reach
`proxy_request`'s blanket handler: the caller-visible response is a
generic 500 "Internal server error" for every upstream 4xx/5xx and for
every network failure alike; neither the upstream status nor its body is
returned. -/
theorem c3_upstream_errors_conflated (resolve : String → User)
    (allowed : List String) (k? : Option String) (hits limit : Nat)
    (req : GReq) (hdrs : Dict) (tenant : String) (user : User)
    (p : User × String) (s : Nat) (b : Body)
    (hdeps : resolveDeps resolve allowed req = .ok p) (hlim : hits < limit)
    (hs : 400 ≤ s) :
    (forward_request (.response s b) hdrs tenant user k?).2 =
      .error (.httpStatusError s) ∧
    (forward_request .netFail hdrs tenant user k?).2 = .error .requestError ∧
    proxy_requestWith resolve allowed true k? (.response s b) hits limit req =
      { status := 500, detail := some "Internal server error"
      , body := none, forwarded := true } ∧
    proxy_requestWith resolve allowed true k? .netFail hits limit req =
      { status := 500, detail := some "Internal server error"
      , body := none, forwarded := true } := by
  have hnl : ¬ limit ≤ hits := by omega
  obtain ⟨u0, t0⟩ := p
  refine ⟨?_, rfl, ?_, ?_⟩
  · simp [forward_request, hs]
  · unfold proxy_requestWith
    rw [hdeps]
    simp [hnl, forward_request, hs]
  · unfold proxy_requestWith
    rw [hdeps]
    simp [hnl, forward_request]

/-- Claim C3 amended, witness: concrete 404 and network-failure runs both
yield 500. -/
theorem c3_upstream_errors_conflated_witness :
    (forward_request (.response 404 (.raw [])) [] "t1" mock_admin_user none).2 =
      .error (.httpStatusError 404) ∧
    (forward_request .netFail [] "t1" mock_admin_user none).2 = .error .requestError ∧
    proxy_requestWith get_user_from_api_key [] true none (.response 404 (.raw [])) 0 60 goodReq =
      { status := 500, detail := some "Internal server error"
      , body := none, forwarded := true } ∧
    proxy_requestWith get_user_from_api_key [] true none .netFail 0 60 goodReq =
      { status := 500, detail := some "Internal server error"
      , body := none, forwarded := true } :=
  c3_upstream_errors_conflated get_user_from_api_key [] none 0 60 goodReq []
    "t1" mock_admin_user (mock_admin_user, "t1") 404 (.raw [])
    (by rfl) (by decide) (by decide)

/-- Claim C4 counterexample: an input mapping holding the Authorization
header under its usual capitalised key survives the rewrite — the
rewritten mapping does contain an Authorization header, refuting the
claim's universal quantification over every inbound mapping. -/
theorem c4_counterexample :
    dget (internal_headers_of [("Authorization", "Bearer secret-value")]
        "t1" mock_admin_user none) "Authorization" = some "Bearer secret-value" :=
  rfl

/-- Claim C4 amended: removal acts on exact lowercase dictionary keys, so
for every input mapping, tenant, identity, and internal-key
configuration, the rewritten mapping has no entry under the exact keys
"authorization", "connection", "keep-alive", "proxy-authenticate",
"proxy-authorization", "te", "trailers", "transfer-encoding", "upgrade";
entries under other capitalisations are not removed (the deployed
pipeline feeds the rewrite from `dict(request.headers)`, whose keys
Starlette lowercases). -/
theorem c4_lowercase_removal (orig : Dict) (tenant : String) (user : User)
    (k? : Option String) :
    dget (internal_headers_of orig tenant user k?) "authorization" = none ∧
    dget (internal_headers_of orig tenant user k?) "connection" = none ∧
    dget (internal_headers_of orig tenant user k?) "keep-alive" = none ∧
    dget (internal_headers_of orig tenant user k?) "proxy-authenticate" = none ∧
    dget (internal_headers_of orig tenant user k?) "proxy-authorization" = none ∧
    dget (internal_headers_of orig tenant user k?) "te" = none ∧
    dget (internal_headers_of orig tenant user k?) "trailers" = none ∧
    dget (internal_headers_of orig tenant user k?) "transfer-encoding" = none ∧
    dget (internal_headers_of orig tenant user k?) "upgrade" = none := by
  cases k? <;>
    refine ⟨?_, ?_, ?_, ?_, ?_, ?_, ?_, ?_, ?_⟩ <;>
    simp [internal_headers_of, hop_by_hop_headers, prepare_internal_headers,
      dget_dpop_self, dget_dpop_ne, dget_dset_ne]

/-- Claim C5 (code bug): the claim (and the spec's error table) says a
missing bearer credential or wrong scheme yields 401. In the code,
`security = HTTPBearer()` has auto_error on, so a missing Authorization
header or a non-bearer scheme is rejected with 403 before
`verify_api_key` runs; `verify_api_key`'s own 401 "API key required"
branch for a missing credential is unreachable (last conjunct shows the
branch). Only the short-credential case yields 401. Nothing is forwarded
in any of these cases. -/
theorem c5_httpbearer_rejects_with_403 :
    proxy_request [] true none okUpstream 0 60 reqNoAuth =
      { status := 403, detail := some "Not authenticated"
      , body := none, forwarded := false } ∧
    proxy_request [] true none okUpstream 0 60 reqBasicAuth =
      { status := 403, detail := some "Invalid authentication credentials"
      , body := none, forwarded := false } ∧
    proxy_request [] true none okUpstream 0 60 reqShortTok =
      { status := 401, detail := some "Invalid API key"
      , body := none, forwarded := false } ∧
    verify_api_key none = .error ⟨401, "API key required"⟩ :=
  ⟨rfl, rfl, rfl, rfl⟩

/-- Claim C6 (confirmed): for every identity whose roles meet neither
system_admin nor org_admin, `verify_admin_access` fails with 403
"MCP access requires admin privileges"; and when the allow-list of admin
emails is non-empty, an identity with an admin role whose email is not
listed fails with 403 "Admin not authorized for MCP access". -/
theorem c6_admin_check (user : User) (allowed : List String) (key : String) :
    (user.roles.any (fun role => admin_roles.contains role) = false →
      verify_admin_accessWith (fun _ => user) allowed key =
        .error ⟨403, "MCP access requires admin privileges"⟩) ∧
    (user.roles.any (fun role => admin_roles.contains role) = true →
      allowed ≠ [] → allowed.contains user.email = false →
      verify_admin_accessWith (fun _ => user) allowed key =
        .error ⟨403, "Admin not authorized for MCP access"⟩) := by
  constructor
  · intro h
    unfold verify_admin_accessWith
    dsimp only
    rw [h]
    simp
  · intro h hne hmail
    have hempty : allowed.isEmpty = false := by
      cases allowed with
      | nil => exact absurd rfl hne
      | cons a l => rfl
    unfold verify_admin_accessWith
    dsimp only
    rw [h, hempty, hmail]
    simp

/-- Claim C6 witness: a role-less identity is rejected for missing admin
privileges; an org_admin not on a configured allow-list is rejected as an
unauthorized admin. -/
theorem c6_admin_check_witness :
    verify_admin_accessWith (fun _ => non_admin_user) [] "k" =
      .error ⟨403, "MCP access requires admin privileges"⟩ ∧
    verify_admin_accessWith (fun _ => org_admin_user) ["boss@example.com"] "k" =
      .error ⟨403, "Admin not authorized for MCP access"⟩ :=
  ⟨(c6_admin_check non_admin_user [] "k").1 (by decide),
   (c6_admin_check org_admin_user ["boss@example.com"] "k").2
     (by decide) (by decide) (by decide)⟩

/-- Claim C7 (confirmed): with the audit logger set, the middleware
produces, for every request and every downstream pipeline outcome
(`call_next` is arbitrary, and FastAPI's exception handlers beneath it
turn every short-circuit into a response), exactly the two-event list
[request_received(method, path, caller address, user agent),
request_completed(status, path)] — one received event emitted before the
pipeline runs, one completed event after the response, with the actual
response status — and passes the response through unchanged. -/
theorem c7_audit_brackets (next : GReq → PipeResult) (req : GReq) :
    (audit_middleware true next req).1 =
      [AuditEvent.request_received req.method req.path req.client_ip
        (headerGet req.headers "user-agent"),
       AuditEvent.request_completed (next req).status req.path] ∧
    (audit_middleware true next req).2 = next req :=
  ⟨rfl, rfl⟩

/-- Claim C8 (confirmed): `_prepare_internal_headers` starts with
`original_headers.copy()`, so every write lands on the copy; as a
transformer of the caller's state, the call leaves `original_headers`
exactly as it was and binds the rewritten mapping to the result. -/
theorem c8_rewrite_preserves_input (s : HeaderCallState) (tenant : String)
    (user : User) (k? : Option String) :
    (prepare_internal_headers_call tenant user k? s).original_headers =
      s.original_headers ∧
    (prepare_internal_headers_call tenant user k? s).result =
      prepare_internal_headers s.original_headers tenant user k? :=
  ⟨rfl, rfl⟩

/-- Claim C9 (confirmed): the identity resolver is a constant function —
every credential maps to the same record with roles ["system_admin"],
tenant "default", email "admin@example.com", and there is no not-found
outcome. Consequently any bearer token of 32 or more characters passes
`verify_api_key`, and under the default (empty) allow-list
`verify_admin_access` admits it as that cross-tenant system admin. -/
theorem c9_resolver_constant (key tok : String) (allowed : List String)
    (h32 : 32 ≤ tok.length) (hallow : allowed = []) :
    get_user_from_api_key key = mock_admin_user ∧
    mock_admin_user.roles = ["system_admin"] ∧
    mock_admin_user.tenant_id = "default" ∧
    mock_admin_user.email = "admin@example.com" ∧
    verify_api_key (some ⟨"Bearer", tok⟩) = .ok tok ∧
    verify_admin_access allowed tok = .ok mock_admin_user := by
  have hne : tok ≠ "" := by
    intro h
    subst h
    exact absurd h32 (by decide)
  have hlen : ¬ tok.length < 32 := Nat.not_lt.mpr h32
  subst hallow
  refine ⟨rfl, rfl, rfl, rfl, ?_, rfl⟩
  unfold verify_api_key
  simp [hne, hlen]

/-- Claim C9 witness: the 32-character token is resolved to the fixed
system-admin record and admitted under the default empty allow-list. -/
theorem c9_resolver_constant_witness :
    get_user_from_api_key "any-key" = mock_admin_user ∧
    verify_api_key (some ⟨"Bearer", tok32⟩) = .ok tok32 ∧
    verify_admin_access [] tok32 = .ok mock_admin_user := by
  have h := c9_resolver_constant "any-key" tok32 [] (by decide) rfl
  exact ⟨h.1, h.2.2.2.2.1, h.2.2.2.2.2⟩

/-- Claim C10 (confirmed): header removal during rewriting is
case-sensitive on exact dictionary keys — mixed-case "Authorization" and
"Connection" entries survive into the rewritten mapping, while the
all-lowercase forms are removed. -/
theorem c10_case_sensitive_removal :
    dget (internal_headers_of
        [("Authorization", "Bearer abc"), ("Connection", "keep-alive")]
        "t1" mock_admin_user none) "Authorization" = some "Bearer abc" ∧
    dget (internal_headers_of
        [("Authorization", "Bearer abc"), ("Connection", "keep-alive")]
        "t1" mock_admin_user none) "Connection" = some "keep-alive" ∧
    dget (internal_headers_of
        [("authorization", "Bearer abc"), ("connection", "keep-alive")]
        "t1" mock_admin_user none) "authorization" = none ∧
    dget (internal_headers_of
        [("authorization", "Bearer abc"), ("connection", "keep-alive")]
        "t1" mock_admin_user none) "connection" = none :=
  ⟨rfl, rfl, rfl, rfl⟩

end JaiMcp
